import Mathlib

/-!
Shallow embedding of `sl2influxdb/seedlink.py` (`MySeedlinkClient`).

Times and latencies are modelled as `Int` seconds (the source uses float
seconds via `UTCDateTime` subtraction); sample rates as `Int` Hz.  Python
truthiness of a numeric field (`if self.SL_PACKET_TIME_MAX:`,
`if self.resample_rate:`) is modelled as `≠ 0`.  The Python dict
`show_too_old_packet_msg` is modelled as an association list with
insert-or-overwrite update.  Side effects (log calls, queue submission,
shutdown polling, connection calls, `sys.exit`) are made explicit as
event traces in the step output, in program order.
-/

set_option autoImplicit false

namespace Seedlink

/-- `logging.INFO` from the Python standard library. -/
def INFO : Int := 20

/-- One waveform packet as seen by `on_data` (`trace`): `get_id()` string,
`stats['endtime']`, `stats['sampling_rate']`, and abstract sample data
(the claims never inspect sample values, only whether the trace object
handed to the queue is the unchanged one). -/
structure Trace where
  id : String
  endtime : Int
  sampling_rate : Int
  data : List Int
  deriving DecidableEq, Repr

/-- One `<stream>` child of a `<station>` element of the server catalog
(`get_stream_info` output: `c_dic`). -/
structure ChannelAttrs where
  seedname : String
  location : String
  deriving DecidableEq, Repr

/-- One `<station>` element of the server catalog (`get_stream_info`
output: `s_dic` with its `channel` list). -/
structure CatalogEntry where
  network : String
  name : String
  channel : List ChannelAttrs
  deriving DecidableEq, Repr

/-- A selection pattern whose four regular expressions compiled: each
component is the decision function of `re.match` for the corresponding
compiled expression (`select_stream_re`, lines 98-101).  A pattern that
fails to compile makes `select_stream_re` return `False` before touching
any state, so it contributes nothing to `selected_streams`. -/
structure Pattern where
  net : String → Bool
  sta : String → Bool
  chan : String → Bool
  loc : String → Bool

/-- The dotted identifier built in `add_stream`:
`".".join([net, sta, loc, chan])` where the call site passes
`(net, sta, chan, loc)`. -/
def add_stream_id (net sta chan loc : String) : String :=
  String.intercalate "." [net, sta, loc, chan]

/-- Inner loop of `select_stream_re` (lines 109-113): for each channel of a
station entry that matches both the channel and the location expression,
`add_stream` appends the dotted identifier. -/
def select_channels (p : Pattern) (net sta : String) :
    List ChannelAttrs → List String
  | [] => []
  | c :: cs =>
      if p.chan c.seedname && p.loc c.location then
        add_stream_id net sta c.seedname c.location ::
          select_channels p net sta cs
      else select_channels p net sta cs

/-- `select_stream_re` for a compiled pattern (lines 105-114): stations
failing the network or station match are skipped before the channel loop;
matching channels append their dotted identifier in catalog order. -/
def select_stream_re (p : Pattern) : List CatalogEntry → List String
  | [] => []
  | s :: rest =>
      (if p.net s.network && p.sta s.name then
        select_channels p s.network s.name s.channel
      else []) ++ select_stream_re p rest

/-- The `__init__` loop over user patterns (lines 29-31): each compiled
pattern's matches are appended, in order, to `self.selected_streams`
(a Python list, so appends accumulate). -/
def build_selected_streams : List Pattern → List CatalogEntry → List String
  | [], _ => []
  | p :: ps, info => select_stream_re p info ++ build_selected_streams ps info

/-- Specification-side count: the number of (station entry, channel)
occurrences in the catalog that match the pattern and whose dotted
identifier is `d`.  Defined independently of `select_stream_re` to state
the multiplicity of entries in `selected_streams`. -/
def count_channel_matches (p : Pattern) (net sta : String) (d : String) :
    List ChannelAttrs → Nat
  | [] => 0
  | c :: cs =>
      (if (p.chan c.seedname && p.loc c.location)
          ∧ add_stream_id net sta c.seedname c.location = d then 1 else 0)
      + count_channel_matches p net sta d cs

/-- Specification-side count over the whole catalog for one pattern. -/
def count_matches (p : Pattern) (d : String) : List CatalogEntry → Nat
  | [] => 0
  | s :: rest =>
      (if p.net s.network && p.sta s.name then
        count_channel_matches p s.network s.name d s.channel
      else 0) + count_matches p d rest

/-- Mutable client state touched by `on_data`: the subscription list and
the per-channel log-suppression map, plus the numeric configuration
fields set in `__init__`. -/
structure ClientState where
  selected_streams : List String
  show_too_old_packet_msg : List (String × Bool)
  SL_PACKET_TIME_MAX : Int
  resample_rate : Int
  queue_timeout : Int
  deriving DecidableEq, Repr

/-- The state built by `__init__` (lines 36-43): queue timeout 15 s,
max packet age 60·30 = 1800 s, resample rate 10 Hz, empty suppression
map. -/
def init_state (selected : List String) : ClientState :=
  { selected_streams := selected
    show_too_old_packet_msg := []
    SL_PACKET_TIME_MAX := 1800
    resample_rate := 10
    queue_timeout := 15 }

/-- External circumstances of one `on_data` invocation: the current UTC
time, the logger's effective level, whether `shutdown_event` is set,
whether `q.put` times out (`queue.Full` after the blocking wait), and
whether `trace.resample` succeeds. -/
structure Env where
  now : Int
  logLevel : Int
  shutdownSet : Bool
  queueFull : Bool
  resampleOk : Bool
  deriving DecidableEq, Repr

/-- Observable log calls made during one `on_data` invocation. -/
inductive LogEvent where
  /-- `logger.info`: latency too high, trace disabled (lines 144-148). -/
  | disableMsg (ch : String)
  /-- `logger.info`: latency back under threshold, trace enabled
  (lines 162-165). -/
  | enableMsg (ch : String)
  /-- `logger.warning`: resample failed (lines 172-174). -/
  | resampleWarning (ch : String)
  /-- `logger.error`: queue full and timeout reached (line 179). -/
  | queueFullError
  /-- `logger.error`: ignoring data (line 181). -/
  | ignoringDataError
  /-- `logger.info`: thread caught shutdown event (lines 152, 184). -/
  | shutdownCaught
  deriving DecidableEq, Repr

/-- The two textual sites where `on_data` polls `shutdown_event.isSet()`:
inside the stale-discard branch (line 151) and after the queue
submission (line 183). -/
inductive PollSite where
  | staleBranch
  | afterPut
  deriving DecidableEq, Repr

/-- Everything observable about one `on_data` invocation besides the new
state: the log events in program order, the shutdown polls reached, the
trace offered to `q.put` (if any), whether the queue accepted it,
whether `trace.resample` was invoked, and whether `stop_seedlink` was
called. -/
structure StepOut where
  events : List LogEvent
  polls : List PollSite
  submitted : Option Trace
  enqueued : Bool
  resampleAttempted : Bool
  stopped : Bool
  deriving DecidableEq, Repr

/-- Output of an `on_data` call that returned at line 130 (channel not
selected): no events, no polls, nothing submitted. -/
def emptyOut : StepOut :=
  { events := []
    polls := []
    submitted := none
    enqueued := false
    resampleAttempted := false
    stopped := false }

/-- First-match lookup in the association list modelling the Python
dict. -/
def lookupA (m : List (String × Bool)) (k : String) : Option Bool :=
  match m with
  | [] => none
  | (k₁, v) :: rest => if k₁ = k then some v else lookupA rest k

/-- Insert-or-overwrite in the association list modelling the Python
dict assignment `d[k] = v`. -/
def insertA (m : List (String × Bool)) (k : String) (v : Bool) :
    List (String × Bool) :=
  match m with
  | [] => [(k, v)]
  | (k₁, v₁) :: rest =>
      if k₁ = k then (k₁, v) :: rest else (k₁, v₁) :: insertA rest k v

/-- The gate condition (line 138):
`if self.SL_PACKET_TIME_MAX and latency > self.SL_PACKET_TIME_MAX`. -/
def isStale (st : ClientState) (env : Env) (tr : Trace) : Bool :=
  (st.SL_PACKET_TIME_MAX != 0)
    && decide (st.SL_PACKET_TIME_MAX < env.now - tr.endtime)

/-- The log-suppression update shared by both branches (lines 139-149 and
157-165): guarded by the logger's effective level, it logs and records
the new freshness value only on a state change (or on first sight of the
channel). -/
def gateUpdate (m : List (String × Bool)) (ch : String) (lvl : Int)
    (stale : Bool) : List (String × Bool) × List LogEvent :=
  if lvl ≤ INFO then
    if stale then
      match lookupA m ch with
      | some false => (m, [])
      | _ => (insertA m ch false, [LogEvent.disableMsg ch])
    else
      match lookupA m ch with
      | some true => (m, [])
      | _ => (insertA m ch true, [LogEvent.enableMsg ch])
  else (m, [])

/-- The resample step (lines 167-174): attempted only when
`self.resample_rate` is truthy; on success the trace's sampling rate
becomes the target, on failure a warning is logged and the trace is left
unchanged. -/
def resampleStep (st : ClientState) (env : Env) (tr : Trace) :
    Trace × List LogEvent :=
  if st.resample_rate ≠ 0 then
    if env.resampleOk then ({ tr with sampling_rate := st.resample_rate }, [])
    else (tr, [LogEvent.resampleWarning tr.id])
  else (tr, [])

/-- The shutdown poll (lines 151-154 and 183-186): when the event is set,
a log message is emitted and `stop_seedlink` is called. -/
def shutdownEvents (env : Env) : List LogEvent :=
  if env.shutdownSet then [LogEvent.shutdownCaught] else []

/-- `on_data` (lines 126-186).  The stale branch returns at line 155
without touching the resampler or the queue; the fresh path resamples,
offers the trace to `q.put` (dropping it with two error logs on
`queue.Full`), then polls the shutdown event. -/
def on_data (st : ClientState) (env : Env) (tr : Trace) :
    ClientState × StepOut :=
  let channel := tr.id
  if channel ∈ st.selected_streams then
    let stale := isStale st env tr
    let mev := gateUpdate st.show_too_old_packet_msg channel env.logLevel stale
    let st₁ := { st with show_too_old_packet_msg := mev.1 }
    if stale then
      (st₁,
       { events := mev.2 ++ shutdownEvents env
         polls := [PollSite.staleBranch]
         submitted := none
         enqueued := false
         resampleAttempted := false
         stopped := env.shutdownSet })
    else
      let rr := resampleStep st env tr
      let qev := if env.queueFull
        then [LogEvent.queueFullError, LogEvent.ignoringDataError] else []
      (st₁,
       { events := mev.2 ++ rr.2 ++ qev ++ shutdownEvents env
         polls := [PollSite.afterPut]
         submitted := some rr.1
         enqueued := !env.queueFull
         resampleAttempted := st.resample_rate != 0
         stopped := env.shutdownSet })
  else (st, emptyOut)

/-- Calls made on `self.conn` and other lifecycle actions, for modelling
the checkpoint protocol of `__init__` (lines 58-67) and `stop_seedlink`
(lines 191-199). -/
inductive Action where
  /-- Assignment `self.conn.statefile = p` (`none` models `None`). -/
  | setStatefile (p : Option String)
  /-- `self.conn.recover_state(path)`. -/
  | recoverState (p : String)
  /-- `self.conn.save_state(path)`. -/
  | saveState (p : String)
  /-- `logger.error(e)` on a caught `SeedLinkException`. -/
  | logError
  /-- The blocking receive loop between startup and shutdown. -/
  | runLoop
  /-- `self.conn.close()`. -/
  | close
  /-- `sys.exit(n)`. -/
  | exitCode (n : Nat)
  deriving DecidableEq, Repr

/-- Checkpoint phase of `__init__` (lines 58-67): only under the recovery
flag, the statefile is attached, `recover_state` is attempted (a
`SeedLinkException` is logged, not raised), and auto-persist is disabled
by resetting `conn.statefile` to `None`. -/
def init_checkpoint (recover : Bool) (statefile : String)
    (recoverFails : Bool) : List Action :=
  if recover then
    [Action.setStatefile (some statefile), Action.recoverState statefile]
      ++ (if recoverFails then [Action.logError] else [])
      ++ [Action.setStatefile none]
  else []

/-- `stop_seedlink` (lines 191-199): re-attach the statefile, attempt
`save_state` (a `SeedLinkException` is logged, not raised), close the
connection, exit with status 0. -/
def stop_seedlink (statefile : String) (saveFails : Bool) : List Action :=
  [Action.setStatefile (some statefile), Action.saveState statefile]
    ++ (if saveFails then [Action.logError] else [])
    ++ [Action.close, Action.exitCode 0]

/-- Whole-session action trace: checkpoint phase of `__init__`, the
receive loop, then `stop_seedlink`. -/
def session_trace (recover : Bool) (statefile : String)
    (recoverFails saveFails : Bool) : List Action :=
  init_checkpoint recover statefile recoverFails
    ++ [Action.runLoop] ++ stop_seedlink statefile saveFails

/-- The freshness-transition log events (channel disabled / enabled)
among the events of a step. -/
def isTransitionEvent : LogEvent → Bool
  | .disableMsg _ => true
  | .enableMsg _ => true
  | _ => false

/-- Restriction of an event list to freshness-transition events. -/
def transitionEvents (evs : List LogEvent) : List LogEvent :=
  evs.filter isTransitionEvent

theorem lookupA_insertA_self (m : List (String × Bool)) (k : String)
    (v : Bool) : lookupA (insertA m k v) k = some v := by
  induction m with
  | nil => simp [insertA, lookupA]
  | cons hd tl ih =>
    obtain ⟨k₁, v₁⟩ := hd
    by_cases h : k₁ = k <;> simp [insertA, lookupA, h, ih]

theorem gateUpdate_lookup (m : List (String × Bool)) (ch : String)
    (lvl : Int) (stale : Bool) (h : lvl ≤ INFO) :
    lookupA (gateUpdate m ch lvl stale).1 ch = some (!stale) := by
  unfold gateUpdate
  rw [if_pos h]
  cases stale <;> rcases hm : lookupA m ch with _ | b <;> try cases b
  all_goals simp [lookupA_insertA_self, hm]

theorem gateUpdate_events (m : List (String × Bool)) (ch : String)
    (lvl : Int) (stale : Bool) (h : lvl ≤ INFO) :
    (gateUpdate m ch lvl stale).2 =
      if lookupA m ch = some (!stale) then []
      else [if stale then LogEvent.disableMsg ch else LogEvent.enableMsg ch] := by
  unfold gateUpdate
  rw [if_pos h]
  cases stale <;> rcases hm : lookupA m ch with _ | b <;> try cases b
  all_goals simp [hm]

theorem gateUpdate_silent (m : List (String × Bool)) (ch : String)
    (lvl : Int) (stale : Bool) (h : ¬ lvl ≤ INFO) :
    gateUpdate m ch lvl stale = (m, []) := by
  unfold gateUpdate
  rw [if_neg h]

theorem transitionEvents_resampleStep (st : ClientState) (env : Env)
    (tr : Trace) : transitionEvents (resampleStep st env tr).2 = [] := by
  unfold resampleStep transitionEvents
  split
  · split <;> simp [isTransitionEvent]
  · simp

theorem transitionEvents_shutdownEvents (env : Env) :
    transitionEvents (shutdownEvents env) = [] := by
  unfold shutdownEvents transitionEvents
  split <;> simp [isTransitionEvent]

theorem transitionEvents_append (a b : List LogEvent) :
    transitionEvents (a ++ b) = transitionEvents a ++ transitionEvents b := by
  simp [transitionEvents]

theorem transitionEvents_queueEvents (b : Bool) :
    transitionEvents
      (if b = true then [LogEvent.queueFullError, LogEvent.ignoringDataError]
       else []) = [] := by
  cases b <;> simp [transitionEvents, isTransitionEvent]

theorem transitionEvents_gateUpdate (m : List (String × Bool)) (ch : String)
    (lvl : Int) (stale : Bool) :
    transitionEvents (gateUpdate m ch lvl stale).2
      = (gateUpdate m ch lvl stale).2 := by
  unfold gateUpdate
  split
  · cases stale <;> rcases hm : lookupA m ch with _ | b <;> try cases b
    all_goals simp [hm, transitionEvents, isTransitionEvent]
  · simp [transitionEvents]

theorem on_data_events_stale (st : ClientState) (env : Env) (tr : Trace)
    (hsel : tr.id ∈ st.selected_streams) (hst : isStale st env tr = true) :
    (on_data st env tr).2.events =
      (gateUpdate st.show_too_old_packet_msg tr.id env.logLevel true).2
        ++ shutdownEvents env := by
  simp [on_data, hsel, hst]

theorem on_data_events_fresh (st : ClientState) (env : Env) (tr : Trace)
    (hsel : tr.id ∈ st.selected_streams) (hst : isStale st env tr = false) :
    (on_data st env tr).2.events =
      (gateUpdate st.show_too_old_packet_msg tr.id env.logLevel false).2
        ++ ((resampleStep st env tr).2
        ++ ((if env.queueFull = true
             then [LogEvent.queueFullError, LogEvent.ignoringDataError]
             else [])
        ++ shutdownEvents env)) := by
  simp [on_data, hsel, hst]

theorem on_data_map (st : ClientState) (env : Env) (tr : Trace)
    (hsel : tr.id ∈ st.selected_streams) :
    (on_data st env tr).1.show_too_old_packet_msg =
      (gateUpdate st.show_too_old_packet_msg tr.id env.logLevel
        (isStale st env tr)).1 := by
  cases hst : isStale st env tr <;> simp [on_data, hsel, hst]

/-- C1.  Freshness gate classification: for a selected channel, with a
positive threshold, latency strictly over the threshold means the packet
is discarded (nothing submitted, nothing enqueued, no resample); latency
at or under the threshold means the packet is forwarded to the queue; a
zero threshold disables the gate so every packet is forwarded. -/
theorem freshness_gate_classification (st : ClientState) (env : Env)
    (tr : Trace) (hsel : tr.id ∈ st.selected_streams) :
    (0 < st.SL_PACKET_TIME_MAX →
      st.SL_PACKET_TIME_MAX < env.now - tr.endtime →
      (on_data st env tr).2.submitted = none ∧
      (on_data st env tr).2.enqueued = false ∧
      (on_data st env tr).2.resampleAttempted = false) ∧
    (0 < st.SL_PACKET_TIME_MAX →
      env.now - tr.endtime ≤ st.SL_PACKET_TIME_MAX →
      ((on_data st env tr).2.submitted).isSome = true) ∧
    (st.SL_PACKET_TIME_MAX = 0 →
      ((on_data st env tr).2.submitted).isSome = true) := by
  refine ⟨fun h₁ h₂ => ?_, fun h₁ h₂ => ?_, fun h₀ => ?_⟩
  · have hst : isStale st env tr = true := by
      simp only [isStale, Bool.and_eq_true, bne_iff_ne, ne_eq,
        decide_eq_true_eq]
      exact ⟨by omega, h₂⟩
    simp [on_data, hsel, hst]
  · have hst : isStale st env tr = false := by
      simp only [isStale, Bool.and_eq_false_iff, bne_eq_false_iff_eq,
        decide_eq_false_iff_not, not_lt]
      exact Or.inr h₂
    simp [on_data, hsel, hst]
  · have hst : isStale st env tr = false := by
      simp [isStale, h₀]
    simp [on_data, hsel, hst]

/-- C1 witness: threshold 1800, a stale packet (latency 2000) is
discarded, a fresh packet (latency 1000) is forwarded, and with
threshold 0 any latency is forwarded. -/
theorem freshness_gate_classification_witness :
    (0 < (1800 : Int) → (1800 : Int) < 2000 - 0 →
      (on_data (init_state ["XX.AAA.00.SHZ"])
        ⟨2000, 20, false, false, true⟩ ⟨"XX.AAA.00.SHZ", 0, 100, []⟩).2.submitted
          = none ∧
      (on_data (init_state ["XX.AAA.00.SHZ"])
        ⟨2000, 20, false, false, true⟩ ⟨"XX.AAA.00.SHZ", 0, 100, []⟩).2.enqueued
          = false ∧
      (on_data (init_state ["XX.AAA.00.SHZ"])
        ⟨2000, 20, false, false, true⟩
        ⟨"XX.AAA.00.SHZ", 0, 100, []⟩).2.resampleAttempted = false) ∧
    (0 < (1800 : Int) → 2000 - 0 ≤ (1800 : Int) →
      ((on_data (init_state ["XX.AAA.00.SHZ"])
        ⟨2000, 20, false, false, true⟩
        ⟨"XX.AAA.00.SHZ", 0, 100, []⟩).2.submitted).isSome = true) ∧
    ((1800 : Int) = 0 →
      ((on_data (init_state ["XX.AAA.00.SHZ"])
        ⟨2000, 20, false, false, true⟩
        ⟨"XX.AAA.00.SHZ", 0, 100, []⟩).2.submitted).isSome = true) :=
  freshness_gate_classification (init_state ["XX.AAA.00.SHZ"])
    ⟨2000, 20, false, false, true⟩ ⟨"XX.AAA.00.SHZ", 0, 100, []⟩
    (by decide)

/-- C4.  Queue membership invariant: a trace is offered to the queue only
when its channel id is in `selected_streams`, and a trace whose channel
id is not selected is returned at once: state unchanged, no events, no
polls, nothing submitted, no stop. -/
theorem queue_membership_invariant (st : ClientState) (env : Env)
    (tr : Trace) :
    (((on_data st env tr).2.submitted).isSome = true →
      tr.id ∈ st.selected_streams) ∧
    (tr.id ∉ st.selected_streams → on_data st env tr = (st, emptyOut)) := by
  by_cases hmem : tr.id ∈ st.selected_streams
  · exact ⟨fun _ => hmem, fun h => absurd hmem h⟩
  · refine ⟨fun h => ?_, fun _ => by simp [on_data, hmem]⟩
    rw [show on_data st env tr = (st, emptyOut) by simp [on_data, hmem]] at h
    simp [emptyOut] at h

/-- C4 witness: a packet on an unselected channel is returned untouched,
and forwarded packets are on selected channels. -/
theorem queue_membership_invariant_witness :
    (((on_data (init_state ["XX.AAA.00.SHZ"])
        ⟨0, 20, false, false, true⟩
        ⟨"YY.BBB.00.SHZ", 0, 100, []⟩).2.submitted).isSome = true →
      "YY.BBB.00.SHZ" ∈ (init_state ["XX.AAA.00.SHZ"]).selected_streams) ∧
    ("YY.BBB.00.SHZ" ∉ (init_state ["XX.AAA.00.SHZ"]).selected_streams →
      on_data (init_state ["XX.AAA.00.SHZ"]) ⟨0, 20, false, false, true⟩
        ⟨"YY.BBB.00.SHZ", 0, 100, []⟩ =
        (init_state ["XX.AAA.00.SHZ"], emptyOut)) :=
  queue_membership_invariant (init_state ["XX.AAA.00.SHZ"])
    ⟨0, 20, false, false, true⟩ ⟨"YY.BBB.00.SHZ", 0, 100, []⟩

/-- C3.  Freshness transition logging, one `on_data` step on a selected
channel with the logger at INFO or lower: the step emits no transition
event when the recorded per-channel value already matches the new
classification, and exactly one transition event otherwise — in
particular a channel with no prior entry always logs, a disable-event on
a FRESH→STALE edge and on a first-stale packet, an enable-event on a
STALE→FRESH edge and on a first-fresh packet — and the map afterwards
records the new classification, so repeats stay silent. -/
theorem freshness_transition_logging (st : ClientState) (env : Env)
    (tr : Trace) (hsel : tr.id ∈ st.selected_streams)
    (hlvl : env.logLevel ≤ INFO) :
    transitionEvents (on_data st env tr).2.events =
      (if lookupA st.show_too_old_packet_msg tr.id
          = some (!(isStale st env tr)) then []
       else [if isStale st env tr then LogEvent.disableMsg tr.id
             else LogEvent.enableMsg tr.id]) ∧
    lookupA (on_data st env tr).1.show_too_old_packet_msg tr.id
      = some (!(isStale st env tr)) := by
  constructor
  · cases hst : isStale st env tr
    · rw [on_data_events_fresh st env tr hsel hst]
      rw [transitionEvents_append, transitionEvents_append,
        transitionEvents_append]
      rw [transitionEvents_gateUpdate, transitionEvents_resampleStep,
        transitionEvents_queueEvents, transitionEvents_shutdownEvents]
      rw [gateUpdate_events _ _ _ _ hlvl]
      simp
    · rw [on_data_events_stale st env tr hsel hst]
      rw [transitionEvents_append]
      rw [transitionEvents_gateUpdate, transitionEvents_shutdownEvents]
      rw [gateUpdate_events _ _ _ _ hlvl]
      simp
  · rw [on_data_map st env tr hsel]
    exact gateUpdate_lookup _ _ _ _ hlvl

/-- C3 witness: first packet on a never-seen channel, already stale
(latency 2000 > 1800): exactly one disable-event is logged and the map
records stale. -/
theorem freshness_transition_logging_witness :
    transitionEvents (on_data (init_state ["XX.AAA.00.SHZ"])
        ⟨2000, 20, false, false, true⟩
        ⟨"XX.AAA.00.SHZ", 0, 100, []⟩).2.events =
      (if lookupA (init_state ["XX.AAA.00.SHZ"]).show_too_old_packet_msg
          "XX.AAA.00.SHZ"
          = some (!(isStale (init_state ["XX.AAA.00.SHZ"])
              ⟨2000, 20, false, false, true⟩
              ⟨"XX.AAA.00.SHZ", 0, 100, []⟩)) then []
       else [if isStale (init_state ["XX.AAA.00.SHZ"])
              ⟨2000, 20, false, false, true⟩
              ⟨"XX.AAA.00.SHZ", 0, 100, []⟩
             then LogEvent.disableMsg "XX.AAA.00.SHZ"
             else LogEvent.enableMsg "XX.AAA.00.SHZ"]) ∧
    lookupA (on_data (init_state ["XX.AAA.00.SHZ"])
        ⟨2000, 20, false, false, true⟩
        ⟨"XX.AAA.00.SHZ", 0, 100, []⟩).1.show_too_old_packet_msg
        "XX.AAA.00.SHZ"
      = some (!(isStale (init_state ["XX.AAA.00.SHZ"])
          ⟨2000, 20, false, false, true⟩
          ⟨"XX.AAA.00.SHZ", 0, 100, []⟩)) :=
  freshness_transition_logging (init_state ["XX.AAA.00.SHZ"])
    ⟨2000, 20, false, false, true⟩ ⟨"XX.AAA.00.SHZ", 0, 100, []⟩
    (by decide) (by decide)

/-- C5.  A packet that passed the gate is always offered to the queue;
when the resample rate is nonzero and resampling fails, a warning is
logged and the very same trace is submitted at its original rate; when
the resample rate is zero the resampler is bypassed and the trace is
submitted unchanged. -/
theorem resample_failure_never_drops (st : ClientState) (env : Env)
    (tr : Trace) (hsel : tr.id ∈ st.selected_streams)
    (hfresh : isStale st env tr = false) :
    ((on_data st env tr).2.submitted).isSome = true ∧
    (st.resample_rate ≠ 0 → env.resampleOk = false →
      (on_data st env tr).2.submitted = some tr ∧
      LogEvent.resampleWarning tr.id ∈ (on_data st env tr).2.events) ∧
    (st.resample_rate = 0 →
      (on_data st env tr).2.resampleAttempted = false ∧
      (on_data st env tr).2.submitted = some tr) := by
  refine ⟨by simp [on_data, hsel, hfresh], fun hr hok => ?_, fun hr => ?_⟩
  · have hrs : resampleStep st env tr
        = (tr, [LogEvent.resampleWarning tr.id]) := by
      simp [resampleStep, hr, hok]
    simp [on_data, hsel, hfresh, hrs]
  · have hrs : resampleStep st env tr = (tr, []) := by
      simp [resampleStep, hr]
    simp [on_data, hsel, hfresh, hrs, hr]

/-- C5 witness: resampling a 100 Hz trace to 10 Hz fails, the warning is
logged, and the original trace still reaches the queue. -/
theorem resample_failure_never_drops_witness :
    ((on_data (init_state ["XX.AAA.00.SHZ"]) ⟨1000, 20, false, false, false⟩
        ⟨"XX.AAA.00.SHZ", 0, 100, []⟩).2.submitted).isSome = true ∧
    ((init_state ["XX.AAA.00.SHZ"]).resample_rate ≠ 0 →
      (false : Bool) = false →
      (on_data (init_state ["XX.AAA.00.SHZ"]) ⟨1000, 20, false, false, false⟩
        ⟨"XX.AAA.00.SHZ", 0, 100, []⟩).2.submitted
        = some ⟨"XX.AAA.00.SHZ", 0, 100, []⟩ ∧
      LogEvent.resampleWarning "XX.AAA.00.SHZ" ∈
        (on_data (init_state ["XX.AAA.00.SHZ"]) ⟨1000, 20, false, false, false⟩
          ⟨"XX.AAA.00.SHZ", 0, 100, []⟩).2.events) ∧
    ((init_state ["XX.AAA.00.SHZ"]).resample_rate = 0 →
      (on_data (init_state ["XX.AAA.00.SHZ"]) ⟨1000, 20, false, false, false⟩
        ⟨"XX.AAA.00.SHZ", 0, 100, []⟩).2.resampleAttempted = false ∧
      (on_data (init_state ["XX.AAA.00.SHZ"]) ⟨1000, 20, false, false, false⟩
        ⟨"XX.AAA.00.SHZ", 0, 100, []⟩).2.submitted
        = some ⟨"XX.AAA.00.SHZ", 0, 100, []⟩) :=
  resample_failure_never_drops (init_state ["XX.AAA.00.SHZ"])
    ⟨1000, 20, false, false, false⟩ ⟨"XX.AAA.00.SHZ", 0, 100, []⟩
    (by decide) (by decide)

/-- C6.  Queue handoff backpressure: the configured submission timeout
defaults to 15 seconds; when the queue is still full after the wait, the
accepted packet was offered exactly once, is not enqueued, both error
messages are logged, and processing continues — `stop_seedlink` runs
only when the shutdown flag is set, never because of the full queue. -/
theorem queue_backpressure (selected : List String) (st : ClientState)
    (env : Env) (tr : Trace) (hsel : tr.id ∈ st.selected_streams)
    (hfresh : isStale st env tr = false) (hfull : env.queueFull = true) :
    (init_state selected).queue_timeout = 15 ∧
    (on_data st env tr).2.enqueued = false ∧
    LogEvent.queueFullError ∈ (on_data st env tr).2.events ∧
    LogEvent.ignoringDataError ∈ (on_data st env tr).2.events ∧
    ((on_data st env tr).2.submitted).isSome = true ∧
    (on_data st env tr).2.stopped = env.shutdownSet := by
  refine ⟨rfl, ?_, ?_, ?_, ?_, ?_⟩ <;>
    simp [on_data, hsel, hfresh, hfull]

/-- C6 witness: fresh packet, queue full after the wait, shutdown flag
clear: the packet is dropped with both error logs and the loop goes on. -/
theorem queue_backpressure_witness :
    (init_state []).queue_timeout = 15 ∧
    (on_data (init_state ["XX.AAA.00.SHZ"]) ⟨1000, 20, false, true, true⟩
      ⟨"XX.AAA.00.SHZ", 0, 100, []⟩).2.enqueued = false ∧
    LogEvent.queueFullError ∈ (on_data (init_state ["XX.AAA.00.SHZ"])
      ⟨1000, 20, false, true, true⟩
      ⟨"XX.AAA.00.SHZ", 0, 100, []⟩).2.events ∧
    LogEvent.ignoringDataError ∈ (on_data (init_state ["XX.AAA.00.SHZ"])
      ⟨1000, 20, false, true, true⟩
      ⟨"XX.AAA.00.SHZ", 0, 100, []⟩).2.events ∧
    ((on_data (init_state ["XX.AAA.00.SHZ"]) ⟨1000, 20, false, true, true⟩
      ⟨"XX.AAA.00.SHZ", 0, 100, []⟩).2.submitted).isSome = true ∧
    (on_data (init_state ["XX.AAA.00.SHZ"]) ⟨1000, 20, false, true, true⟩
      ⟨"XX.AAA.00.SHZ", 0, 100, []⟩).2.stopped
      = (Env.mk 1000 20 false true true).shutdownSet :=
  queue_backpressure [] (init_state ["XX.AAA.00.SHZ"])
    ⟨1000, 20, false, true, true⟩ ⟨"XX.AAA.00.SHZ", 0, 100, []⟩
    (by decide) (by decide) (by decide)

/-- C7 counterexample: a fresh selected packet reaches exactly one
shutdown poll (the post-submission one), not two — there is no
pre-submission poll on the accepted path, so the claim "polled at
exactly two points — before and after queue submission" is false for
this packet. -/
theorem shutdown_polling_counterexample :
    (on_data (init_state ["XX.AAA.00.SHZ"]) ⟨1000, 20, false, false, true⟩
      ⟨"XX.AAA.00.SHZ", 0, 100, []⟩).2.polls = [PollSite.afterPut] ∧
    ((on_data (init_state ["XX.AAA.00.SHZ"]) ⟨1000, 20, false, false, true⟩
      ⟨"XX.AAA.00.SHZ", 0, 100, []⟩).2.polls).length ≠ 2 := by
  decide

/-- C7 amended: each selected packet polls the shutdown flag exactly
once — inside the stale-discard branch for a stale packet, after the
queue submission for a fresh packet — `stop_seedlink` runs exactly when
the flag is set at that poll, and on the accepted path the queue
submission has always been made before shutdown is honored. -/
theorem shutdown_polling_amended (st : ClientState) (env : Env)
    (tr : Trace) (hsel : tr.id ∈ st.selected_streams) :
    (on_data st env tr).2.polls =
      [if isStale st env tr then PollSite.staleBranch
       else PollSite.afterPut] ∧
    (on_data st env tr).2.stopped = env.shutdownSet ∧
    (isStale st env tr = false → (on_data st env tr).2.stopped = true →
      ((on_data st env tr).2.submitted).isSome = true) := by
  cases hst : isStale st env tr <;> simp [on_data, hsel, hst]

/-- C7 amended witness: stale packet with the flag set polls once in the
stale branch and stops; the fresh-packet side is covered by the
counterexample input. -/
theorem shutdown_polling_amended_witness :
    (on_data (init_state ["XX.AAA.00.SHZ"]) ⟨2000, 20, true, false, true⟩
      ⟨"XX.AAA.00.SHZ", 0, 100, []⟩).2.polls =
      [if isStale (init_state ["XX.AAA.00.SHZ"]) ⟨2000, 20, true, false, true⟩
          ⟨"XX.AAA.00.SHZ", 0, 100, []⟩ then PollSite.staleBranch
       else PollSite.afterPut] ∧
    (on_data (init_state ["XX.AAA.00.SHZ"]) ⟨2000, 20, true, false, true⟩
      ⟨"XX.AAA.00.SHZ", 0, 100, []⟩).2.stopped
      = (Env.mk 2000 20 true false true).shutdownSet ∧
    (isStale (init_state ["XX.AAA.00.SHZ"]) ⟨2000, 20, true, false, true⟩
        ⟨"XX.AAA.00.SHZ", 0, 100, []⟩ = false →
      (on_data (init_state ["XX.AAA.00.SHZ"]) ⟨2000, 20, true, false, true⟩
        ⟨"XX.AAA.00.SHZ", 0, 100, []⟩).2.stopped = true →
      ((on_data (init_state ["XX.AAA.00.SHZ"]) ⟨2000, 20, true, false, true⟩
        ⟨"XX.AAA.00.SHZ", 0, 100, []⟩).2.submitted).isSome = true) :=
  shutdown_polling_amended (init_state ["XX.AAA.00.SHZ"])
    ⟨2000, 20, true, false, true⟩ ⟨"XX.AAA.00.SHZ", 0, 100, []⟩ (by decide)

theorem on_data_enqueued (st : ClientState) (env : Env) (tr : Trace) :
    (on_data st env tr).2.enqueued =
      (decide (tr.id ∈ st.selected_streams) && !(isStale st env tr)
        && !env.queueFull) := by
  by_cases hmem : tr.id ∈ st.selected_streams
  · cases hst : isStale st env tr <;> simp [on_data, hmem, hst]
  · simp [on_data, hmem, emptyOut]

/-- C9.  Noninterference: two runs on the same trace whose states and
environments agree on everything except the logger's effective level and
the prior contents of the per-channel freshness map make the same
enqueue decision; and when the effective level is above INFO the
freshness map is not mutated at all. -/
theorem gate_decision_noninterference (st₁ st₂ : ClientState)
    (env₁ env₂ : Env) (tr : Trace)
    (hsel : st₁.selected_streams = st₂.selected_streams)
    (hthr : st₁.SL_PACKET_TIME_MAX = st₂.SL_PACKET_TIME_MAX)
    (hrr : st₁.resample_rate = st₂.resample_rate)
    (hqt : st₁.queue_timeout = st₂.queue_timeout)
    (hnow : env₁.now = env₂.now)
    (hsd : env₁.shutdownSet = env₂.shutdownSet)
    (hqf : env₁.queueFull = env₂.queueFull)
    (hro : env₁.resampleOk = env₂.resampleOk) :
    (on_data st₁ env₁ tr).2.enqueued = (on_data st₂ env₂ tr).2.enqueued ∧
    (INFO < env₁.logLevel →
      (on_data st₁ env₁ tr).1.show_too_old_packet_msg
        = st₁.show_too_old_packet_msg) := by
  constructor
  · rw [on_data_enqueued, on_data_enqueued]
    have hst : isStale st₁ env₁ tr = isStale st₂ env₂ tr := by
      simp [isStale, hthr, hnow]
    rw [hsel, hqf, hst]
  · intro hlvl
    by_cases hmem : tr.id ∈ st₁.selected_streams
    · rw [on_data_map st₁ env₁ tr hmem,
        gateUpdate_silent _ _ _ _ (not_le.mpr hlvl)]
    · simp [on_data, hmem]

/-- C9 witness: same fresh packet, one run with an empty map at level
INFO, the other with a prior stale entry at level WARNING (30): both
enqueue, and the WARNING-level run leaves its map untouched. -/
theorem gate_decision_noninterference_witness :
    (on_data (init_state ["XX.AAA.00.SHZ"]) ⟨1000, 20, false, false, true⟩
      ⟨"XX.AAA.00.SHZ", 0, 100, []⟩).2.enqueued =
    (on_data { init_state ["XX.AAA.00.SHZ"] with
        show_too_old_packet_msg := [("XX.AAA.00.SHZ", false)] }
      ⟨1000, 30, false, false, true⟩
      ⟨"XX.AAA.00.SHZ", 0, 100, []⟩).2.enqueued ∧
    (INFO < (Env.mk 1000 20 false false true).logLevel →
      (on_data (init_state ["XX.AAA.00.SHZ"]) ⟨1000, 20, false, false, true⟩
        ⟨"XX.AAA.00.SHZ", 0, 100, []⟩).1.show_too_old_packet_msg
        = (init_state ["XX.AAA.00.SHZ"]).show_too_old_packet_msg) :=
  gate_decision_noninterference (init_state ["XX.AAA.00.SHZ"])
    { init_state ["XX.AAA.00.SHZ"] with
        show_too_old_packet_msg := [("XX.AAA.00.SHZ", false)] }
    ⟨1000, 20, false, false, true⟩ ⟨1000, 30, false, false, true⟩
    ⟨"XX.AAA.00.SHZ", 0, 100, []⟩ rfl rfl rfl rfl rfl rfl rfl rfl

theorem count_select_channels (p : Pattern) (net sta d : String)
    (cs : List ChannelAttrs) :
    (select_channels p net sta cs).count d
      = count_channel_matches p net sta d cs := by
  induction cs with
  | nil => simp [select_channels, count_channel_matches]
  | cons c cs ih =>
    by_cases hm : (p.chan c.seedname && p.loc c.location) = true
    · by_cases hd : add_stream_id net sta c.seedname c.location = d
      · simp [select_channels, count_channel_matches, hm, hd, ih,
          List.count_cons]
        omega
      · simp [select_channels, count_channel_matches, hm, hd, ih,
          List.count_cons]
    · simp [select_channels, count_channel_matches, hm, ih]

theorem count_select_stream_re (p : Pattern) (d : String)
    (info : List CatalogEntry) :
    (select_stream_re p info).count d = count_matches p d info := by
  induction info with
  | nil => simp [select_stream_re, count_matches]
  | cons s rest ih =>
    by_cases hm : (p.net s.network && p.sta s.name) = true
    · simp [select_stream_re, count_matches, hm, List.count_append, ih,
        count_select_channels]
    · simp [select_stream_re, count_matches, hm, ih]

/-- The single pattern of end-to-end scenario 1: anchored matches for
network `XX`, station `AAA`, channel `SHZ`, location `00`. -/
def cPattern : Pattern :=
  { net := fun s => s == "XX"
    sta := fun s => s == "AAA"
    chan := fun s => s == "SHZ"
    loc := fun s => s == "00" }

/-- The catalog of end-to-end scenario 1: one station with one channel. -/
def cCatalog : List CatalogEntry :=
  [{ network := "XX", name := "AAA"
     channel := [{ seedname := "SHZ", location := "00" }] }]

/-- C2 counterexample: `selected_streams` is a Python list built by
`append`, so when the same quadruple is matched by two patterns its
dotted identifier appears twice, not exactly once as the claim
states. -/
theorem stream_selection_uniqueness_counterexample :
    (build_selected_streams [cPattern, cPattern] cCatalog).count
      "XX.AAA.00.SHZ" = 2 ∧
    ¬ (build_selected_streams [cPattern, cPattern] cCatalog).count
      "XX.AAA.00.SHZ" = 1 := by
  decide

/-- C2 amended: each matching (station entry, channel) occurrence of the
catalog contributes the dotted identifier exactly once per pattern that
matches it — the multiplicity of an identifier in `selected_streams` is
the sum, over the compiled patterns, of the number of matching catalog
occurrences producing it; so it is exactly one per distinct matching
quadruple only for a single matching pattern over a duplicate-free
catalog, and duplicate entries appear when several patterns (or repeated
catalog occurrences) match the same quadruple. -/
theorem stream_selection_multiplicity (ps : List Pattern)
    (info : List CatalogEntry) (d : String) :
    (build_selected_streams ps info).count d
      = (ps.map (fun p => count_matches p d info)).sum := by
  induction ps with
  | nil => simp [build_selected_streams]
  | cons p ps ih =>
    simp [build_selected_streams, List.count_append, ih,
      count_select_stream_re]

/-- C8.  Checkpoint lifecycle: with recovery disabled the startup phase
makes no checkpoint call at all; with recovery enabled the session's
call order is attach statefile → restore (failure only logged) → detach
statefile (auto-persist off) → receive loop → re-attach statefile →
persist (failure only logged) → close → exit 0; the persist call is made
exactly once and the process still exits with success when it fails. -/
theorem checkpoint_lifecycle (sf : String) (recoverFails saveFails : Bool) :
    init_checkpoint false sf recoverFails = [] ∧
    session_trace true sf recoverFails saveFails =
      [Action.setStatefile (some sf), Action.recoverState sf]
        ++ (if recoverFails then [Action.logError] else [])
        ++ [Action.setStatefile none, Action.runLoop,
            Action.setStatefile (some sf), Action.saveState sf]
        ++ (if saveFails then [Action.logError] else [])
        ++ [Action.close, Action.exitCode 0] ∧
    (stop_seedlink sf saveFails).count (Action.saveState sf) = 1 ∧
    (stop_seedlink sf saveFails).getLast? = some (Action.exitCode 0) := by
  cases recoverFails <;> cases saveFails <;>
    simp [session_trace, init_checkpoint, stop_seedlink, List.count_cons]

/-- C10.  Shutdown persists the checkpoint unconditionally:
`stop_seedlink` always re-attaches the statefile and calls `save_state`
before closing and exiting 0, and the session trace contains the persist
call and the success exit whether or not the recovery flag was set at
startup. -/
theorem shutdown_persists_unconditionally (recover : Bool) (sf : String)
    (recoverFails saveFails : Bool) :
    stop_seedlink sf saveFails =
      [Action.setStatefile (some sf), Action.saveState sf]
        ++ (if saveFails then [Action.logError] else [])
        ++ [Action.close, Action.exitCode 0] ∧
    Action.saveState sf ∈ session_trace recover sf recoverFails saveFails ∧
    Action.exitCode 0 ∈ session_trace recover sf recoverFails saveFails := by
  refine ⟨rfl, ?_, ?_⟩ <;> simp [session_trace, stop_seedlink]

end Seedlink
